import Mathlib

/-!
Verification of the statistics and game-recording core of the MTG Commander
Tracker bot (src/config.py, src/models.py, src/database.py, src/cogs/*).

The SQLite store is embedded as a record of row lists (`DB`); each table is a
list in insertion order, with a per-table autoincrement counter.  Queries are
translated statement by statement: `SELECT ... WHERE` becomes `List.filter`,
`fetchone` becomes `List.find?`/`List.head?`, joins become lookups on the id
columns, and the Python-side post-processing (loops, `list.sort`) is
reproduced directly.  Timestamps are `Nat`; `created_at` columns, which no
verified property mentions, are not carried in the row records.
-/

namespace MtgBot

/-- Row of the `players` table (database.py, `_create_tables`):
`id` autoincrement primary key, `discord_id` unique, `username`. -/
structure PlayerRow where
  id : Nat
  discord_id : String
  username : String
deriving DecidableEq

/-- Row of the `decks` table: `id`, `player_id`, `commander_name`,
with UNIQUE(player_id, commander_name). -/
structure DeckRow where
  id : Nat
  player_id : Nat
  commander_name : String
deriving DecidableEq

/-- Row of the `games` table: `id`, `game_type`, `played_at`,
`duration_minutes` (nullable), `win_condition`. -/
structure GameRow where
  id : Nat
  game_type : String
  played_at : Nat
  duration_minutes : Option Nat
  win_condition : String
deriving DecidableEq

/-- Row of the `game_placements` table: `id`, `game_id`, `player_id`,
`deck_id`, `placement`. -/
structure PlacementRow where
  id : Nat
  game_id : Nat
  player_id : Nat
  deck_id : Nat
  placement : Nat
deriving DecidableEq

/-- Row of the `stereotypes` table: `id`, `name` (UNIQUE). -/
structure StereotypeRow where
  id : Nat
  name : String
deriving DecidableEq

/-- Row of the `game_stereotypes` join table: `id`, `game_id`, `player_id`,
`stereotype_id`. -/
structure GameStereotypeRow where
  id : Nat
  game_id : Nat
  player_id : Nat
  stereotype_id : Nat
deriving DecidableEq

/-- The SQLite database state: one list per table, in insertion order, plus
the autoincrement counters of the tables the verified operations insert
into. -/
structure DB where
  players : List PlayerRow
  decks : List DeckRow
  games : List GameRow
  placements : List PlacementRow
  stereotypes : List StereotypeRow
  game_stereotypes : List GameStereotypeRow
  next_player_id : Nat
  next_deck_id : Nat
  next_game_id : Nat
  next_placement_id : Nat
  next_stereotype_id : Nat
deriving DecidableEq

/-- Empty database, as produced by `_create_tables` (seeding aside). -/
def emptyDB : DB :=
  ⟨[], [], [], [], [], [], 1, 1, 1, 1, 1⟩

/-- SCORING table from config.py:
`{"multiplayer": {1: 3, 2: 2, 3: 1, 4: 0}, "1v1": {1: 3, 2: 0}}`,
read through `SCORING.get(game_type, {}).get(placement, 0)` in
`Database._calculate_player_points`, so both an unknown game type and an
unknown placement default to 0. -/
def SCORING (game_type : String) (placement : Nat) : Nat :=
  if game_type = "multiplayer" then
    if placement = 1 then 3
    else if placement = 2 then 2
    else if placement = 3 then 1
    else if placement = 4 then 0
    else 0
  else if game_type = "1v1" then
    if placement = 1 then 3
    else if placement = 2 then 0
    else 0
  else 0

/-- Python `str.strip()` with no argument: remove leading and trailing
whitespace characters.  Modelled on the character list of the string. -/
def strip (s : String) : String :=
  String.mk
    (((s.data.dropWhile Char.isWhitespace).reverse.dropWhile
        Char.isWhitespace).reverse)

/-- SELECT on `games` by primary key (`JOIN games g ON gp.game_id = g.id`). -/
def lookup_game (db : DB) (gid : Nat) : Option GameRow :=
  db.games.find? (fun g => g.id == gid)

/-- Join rows of `Database._calculate_player_points`: the
`(g.game_type, gp.placement)` pairs of every placement row of the player
that joins to a game row. -/
def player_type_placement_rows (db : DB) (pid : Nat) : List (String × Nat) :=
  (db.placements.filter (fun gp => gp.player_id == pid)).filterMap
    (fun gp => (lookup_game db gp.game_id).map (fun g => (g.game_type, gp.placement)))

/-- Database._calculate_player_points: sum `SCORING.get(...).get(..., 0)`
over the player's joined placement rows. -/
def calculate_player_points (db : DB) (pid : Nat) : Nat :=
  (player_type_placement_rows db pid).foldl (fun acc r => acc + SCORING r.1 r.2) 0

/-- Insertion loop of `Database.create_game`
(`for player_id, deck_id, placement in placements: INSERT ...`): one
`game_placements` row per tuple, ids from the autoincrement counter. -/
def insert_placements (db : DB) (gid : Nat) (ps : List (Nat × Nat × Nat)) : DB :=
  ps.foldl
    (fun d t =>
      { d with
        placements := d.placements ++ [⟨d.next_placement_id, gid, t.1, t.2.1, t.2.2⟩],
        next_placement_id := d.next_placement_id + 1 })
    db

/-- Database.create_game: INSERT one `games` row, then one `game_placements`
row per `(player_id, deck_id, placement)` tuple, then commit.  No argument is
validated — there is no check of `game_type`, of the placement count, or of
duplicate placements anywhere in this method. -/
def create_game (db : DB) (game_type win_condition : String)
    (placements : List (Nat × Nat × Nat)) (duration_minutes : Option Nat)
    (played_at : Nat) : GameRow × DB :=
  let gid := db.next_game_id
  let g : GameRow := ⟨gid, game_type, played_at, duration_minutes, win_condition⟩
  let db1 : DB := { db with games := db.games ++ [g], next_game_id := gid + 1 }
  (g, insert_placements db1 gid placements)

/-- Run of `Database.create_game` in which the k-th placement INSERT
(1-based) raises.  The method wraps the game INSERT and the placement loop
in no transaction guard and performs no rollback: the statements already
issued on the shared `aiosqlite` connection (the `games` row and the first
k-1 `game_placements` rows) stay in the connection's open implicit
transaction, where every later read on the same connection sees them and the
next `commit()` of any other operation persists them.  The returned state is
therefore what the process observes after the exception propagates. -/
def create_game_fail_at (db : DB) (game_type win_condition : String)
    (placements : List (Nat × Nat × Nat)) (duration_minutes : Option Nat)
    (played_at : Nat) (k : Nat) : DB :=
  let gid := db.next_game_id
  let g : GameRow := ⟨gid, game_type, played_at, duration_minutes, win_condition⟩
  let db1 : DB := { db with games := db.games ++ [g], next_game_id := gid + 1 }
  insert_placements db1 gid (placements.take (k - 1))

/-- Player-count validation of `GameLogModal.on_submit`
(src/cogs/game_logging.py): `min_players = 2 if game_type == "1v1" else 3`,
`max_players = 2 if game_type == "1v1" else 4`; a submission passes iff the
count is within `[min_players, max_players]`, otherwise an error embed is
sent and the handler returns before any database call. -/
def valid_player_count (game_type : String) (n : Nat) : Bool :=
  let min_players := if game_type = "1v1" then 2 else 3
  let max_players := if game_type = "1v1" then 2 else 4
  decide (min_players ≤ n) && decide (n ≤ max_players)

/-- Placement-list construction of `GameLogModal.on_submit`: entry i of the
resolved `(player_id, deck_id)` list is given `placement = i + 1`. -/
def build_placements (resolved : List (Nat × Nat)) : List (Nat × Nat × Nat) :=
  resolved.enum.map (fun ip => (ip.2.1, ip.2.2, ip.1 + 1))

/-- Database.get_or_create_player: SELECT by `discord_id`; if a row is found,
UPDATE its `username` when it differs and return the row's id with the new
username; otherwise INSERT a fresh row. -/
def get_or_create_player (db : DB) (discord_id username : String) :
    PlayerRow × DB :=
  match db.players.find? (fun r => r.discord_id == discord_id) with
  | some row =>
      let db1 : DB :=
        if row.username == username then db
        else
          { db with
            players := db.players.map
              (fun r => if r.id == row.id then { r with username := username } else r) }
      (⟨row.id, row.discord_id, username⟩, db1)
  | none =>
      let p : PlayerRow := ⟨db.next_player_id, discord_id, username⟩
      (p, { db with players := db.players ++ [p],
                    next_player_id := db.next_player_id + 1 })

/-- Database.get_player_by_discord_id: SELECT by `discord_id`, None when no
row matches. -/
def get_player_by_discord_id (db : DB) (discord_id : String) :
    Option PlayerRow :=
  db.players.find? (fun r => r.discord_id == discord_id)

/-- Database.get_or_create_deck: `commander_name = commander_name.strip()`,
then SELECT by `(player_id, commander_name)`; return the found row or INSERT
a fresh one. -/
def get_or_create_deck (db : DB) (player_id : Nat) (commander_name : String) :
    DeckRow × DB :=
  let name := strip commander_name
  match db.decks.find?
      (fun d => d.player_id == player_id && d.commander_name == name) with
  | some row => (row, db)
  | none =>
      let d : DeckRow := ⟨db.next_deck_id, player_id, name⟩
      (d, { db with decks := db.decks ++ [d],
                    next_deck_id := db.next_deck_id + 1 })

/-- Database.add_stereotype: INSERT the stripped name; the UNIQUE(name)
constraint of the `stereotypes` table raises `IntegrityError` exactly when a
row with that name already exists, which the method catches and maps to
None, leaving the table unchanged. -/
def add_stereotype (db : DB) (name : String) : Option StereotypeRow × DB :=
  let trimmed := strip name
  if db.stereotypes.any (fun s => s.name == trimmed) then (none, db)
  else
    let s : StereotypeRow := ⟨db.next_stereotype_id, trimmed⟩
    (some s, { db with stereotypes := db.stereotypes ++ [s],
                       next_stereotype_id := db.next_stereotype_id + 1 })

/-- PlayerStats record from src/models.py; `win_rate` is computed exactly in
ℚ where the source uses Python float division. -/
structure PlayerStats where
  player_id : Nat
  username : String
  total_games : Nat
  wins : Nat
  points : Nat
  win_rate : ℚ
  favorite_deck : Option String
  best_deck : Option String
  current_streak : Nat
deriving DecidableEq

/-- HeadToHeadStats record from src/models.py. -/
structure HeadToHeadStats where
  player1_name : String
  player2_name : String
  player1_wins : Nat
  player2_wins : Nat
  games_together : Nat
  one_v_one_record : Nat × Nat
deriving DecidableEq

/-- Stable insertion (by a Nat key, descending): the new element goes in
front of the first strictly smaller key, after every earlier element of
greater or equal key. -/
def insortBy {α : Type} (key : α → Nat) (x : α) : List α → List α
  | [] => [x]
  | y :: ys => if key y ≤ key x then x :: y :: ys else y :: insortBy key x ys

/-- Stable descending sort by a Nat key, mirroring Python `list.sort`
with `reverse=True` (Timsort is stable) and SQLite `ORDER BY ... DESC`. -/
def sortByDesc {α : Type} (key : α → Nat) (l : List α) : List α :=
  l.foldr (insortBy key) []

/-- Row of the leaderboard SELECT of `Database.get_leaderboard` for one
player: `total_games = COUNT(gp.id)` and
`wins = SUM(CASE WHEN gp.placement = 1 THEN 1 ELSE 0 END)` over the player's
`game_placements` rows, `points` via `_calculate_player_points`, and
`win_rate = wins / total_games * 100` guarded by `total_games > 0`; the
remaining fields are filled with the constants the source uses there. -/
def player_stats_row (db : DB) (p : PlayerRow) : PlayerStats :=
  let gps := db.placements.filter (fun gp => gp.player_id == p.id)
  let total_games := gps.length
  let wins := (gps.filter (fun gp => gp.placement == 1)).length
  { player_id := p.id
    username := p.username
    total_games := total_games
    wins := wins
    points := calculate_player_points db p.id
    win_rate := if total_games > 0 then (wins : ℚ) / (total_games : ℚ) * 100 else 0
    favorite_deck := none
    best_deck := none
    current_streak := 0 }

/-- Database.get_leaderboard: the GROUP BY over `players` LEFT JOIN
`game_placements` with `HAVING total_games > 0` (players without a
placement row are dropped), followed by the Python-side stable
`stats.sort(key=lambda x: x.points, reverse=True)`. -/
def get_leaderboard (db : DB) : List PlayerStats :=
  sortByDesc PlayerStats.points
    ((db.players.map (player_stats_row db)).filter (fun s => s.total_games != 0))

/-- Streak loop of `Database.get_player_stats`: walk the placements of the
ORDER BY `played_at` DESC query, incrementing while `placement == 1` and
breaking at the first non-win. -/
def streak_loop : List Nat → Nat
  | [] => 0
  | p :: rest => if p = 1 then streak_loop rest + 1 else 0

/-- Rows of the streak query of `Database.get_player_stats`: the
`(g.played_at, gp.placement)` pairs of the player's placement rows joined to
`games`. -/
def player_time_placement_rows (db : DB) (pid : Nat) : List (Nat × Nat) :=
  (db.placements.filter (fun gp => gp.player_id == pid)).filterMap
    (fun gp => (lookup_game db gp.game_id).map (fun g => (g.played_at, gp.placement)))

/-- Placements of the player ordered by `played_at` DESC (the streak query's
ORDER BY), most recent first. -/
def placements_by_played_at_desc (db : DB) (pid : Nat) : List Nat :=
  (sortByDesc (fun r => r.1) (player_time_placement_rows db pid)).map (fun r => r.2)

/-- Current-streak computation of `Database.get_player_stats`: run the
streak loop over the placements ordered by `played_at` DESC. -/
def current_streak (db : DB) (pid : Nat) : Nat :=
  streak_loop (placements_by_played_at_desc db pid)

/-- Shared-games SELECT of `Database.get_head_to_head`: games whose id has a
`game_placements` row for each of the two players. -/
def shared_games (db : DB) (pid1 pid2 : Nat) : List GameRow :=
  db.games.filter (fun g =>
    db.placements.any (fun gp => gp.game_id == g.id && gp.player_id == pid1) &&
    db.placements.any (fun gp => gp.game_id == g.id && gp.player_id == pid2))

/-- Winner fetch of `Database.get_head_to_head`: `fetchone` on
`SELECT player_id FROM game_placements WHERE game_id = ? AND placement = 1`. -/
def game_winner (db : DB) (gid : Nat) : Option Nat :=
  (db.placements.find? (fun gp => gp.game_id == gid && gp.placement == 1)).map
    (fun gp => gp.player_id)

/-- Accumulator of the per-game loop of `Database.get_head_to_head`:
`player1_wins`, `player2_wins`, `one_v_one_p1`, `one_v_one_p2`. -/
structure H2HAcc where
  p1w : Nat
  p2w : Nat
  ov1 : Nat
  ov2 : Nat
deriving DecidableEq

/-- Loop body of `Database.get_head_to_head`: if the fetched winner is
player 1, increment `player1_wins` (and the 1v1 counter when
`game_type == "1v1"`); `elif` it is player 2, symmetrically; games with no
placement-1 row, or a winner that is neither player, change nothing. -/
def h2h_step (db : DB) (pid1 pid2 : Nat) (a : H2HAcc) (g : GameRow) : H2HAcc :=
  match game_winner db g.id with
  | some w =>
      if w == pid1 then
        { a with p1w := a.p1w + 1,
                 ov1 := if g.game_type == "1v1" then a.ov1 + 1 else a.ov1 }
      else if w == pid2 then
        { a with p2w := a.p2w + 1,
                 ov2 := if g.game_type == "1v1" then a.ov2 + 1 else a.ov2 }
      else a
  | none => a

/-- Database.get_head_to_head: resolve both discord ids (None if either is
unknown), list the shared games, and fold the winner loop over them. -/
def get_head_to_head (db : DB) (did1 did2 : String) : Option HeadToHeadStats :=
  match get_player_by_discord_id db did1, get_player_by_discord_id db did2 with
  | some p1, some p2 =>
      let shared := shared_games db p1.id p2.id
      let a := shared.foldl (h2h_step db p1.id p2.id) ⟨0, 0, 0, 0⟩
      some ⟨p1.username, p2.username, a.p1w, a.p2w, shared.length, (a.ov1, a.ov2)⟩
  | _, _ => none

/-- Database.get_player_stereotypes: resolve the discord id and return `[]`
when no player exists, before the join query runs; otherwise group the
player's `game_stereotypes` rows by stereotype (inner join, so only
stereotypes with at least one row appear) and ORDER BY count DESC. -/
def get_player_stereotypes (db : DB) (discord_id : String) :
    List (String × Nat) :=
  match get_player_by_discord_id db discord_id with
  | none => []
  | some p =>
      let rows := db.game_stereotypes.filter (fun gs => gs.player_id == p.id)
      let grouped := db.stereotypes.filterMap (fun s =>
        let c := (rows.filter (fun gs => gs.stereotype_id == s.id)).length
        if c > 0 then some (s.name, c) else none)
      sortByDesc (fun r => r.2) grouped

/-- Swap of the head-to-head accumulator, exchanging the two players'
roles. -/
def swapAcc (a : H2HAcc) : H2HAcc := ⟨a.p2w, a.p1w, a.ov2, a.ov1⟩

/-- Database holding one multiplayer game in which player 1 placed 2nd and
one 1v1 game in which player 1 placed 1st (the P4 scoring example). -/
def scoringDB : DB :=
  { emptyDB with
    players := [⟨1, "a", "A"⟩],
    games := [⟨1, "multiplayer", 1, none, "w"⟩, ⟨2, "1v1", 2, none, "w"⟩],
    placements := [⟨1, 1, 1, 1, 2⟩, ⟨2, 2, 1, 1, 1⟩] }

/-- Database holding four games of player 1 whose placements read
win, win, loss, win in most-recent-first `played_at` order. -/
def streakDB : DB :=
  { emptyDB with
    players := [⟨1, "a", "A"⟩],
    games := [⟨1, "multiplayer", 10, none, "w"⟩, ⟨2, "multiplayer", 20, none, "w"⟩,
              ⟨3, "multiplayer", 30, none, "w"⟩, ⟨4, "multiplayer", 40, none, "w"⟩],
    placements := [⟨1, 1, 1, 1, 1⟩, ⟨2, 2, 1, 1, 2⟩, ⟨3, 3, 1, 1, 1⟩, ⟨4, 4, 1, 1, 1⟩] }

/-- Database with players a and b and one shared multiplayer game won by
player a. -/
def h2hDB : DB :=
  { emptyDB with
    players := [⟨1, "a", "A"⟩, ⟨2, "b", "B"⟩],
    games := [⟨1, "multiplayer", 1, none, "w"⟩],
    placements := [⟨1, 1, 1, 1, 1⟩, ⟨2, 1, 2, 2, 2⟩] }

/-- Database with players a and b sharing one game (a won, b placed 2nd) and
player c with no games. -/
def lbDB : DB :=
  { emptyDB with
    players := [⟨1, "a", "A"⟩, ⟨2, "b", "B"⟩, ⟨3, "c", "C"⟩],
    games := [⟨1, "multiplayer", 1, none, "w"⟩],
    placements := [⟨1, 1, 1, 1, 1⟩, ⟨2, 1, 2, 2, 2⟩] }

/-! Helper lemmas about the stable descending sort. -/

theorem sortByDesc_nil {α : Type} (key : α → Nat) : sortByDesc key ([] : List α) = [] :=
  rfl

theorem sortByDesc_cons {α : Type} (key : α → Nat) (x : α) (l : List α) :
    sortByDesc key (x :: l) = insortBy key x (sortByDesc key l) :=
  rfl

theorem mem_insortBy {α : Type} (key : α → Nat) (x a : α) (l : List α) :
    a ∈ insortBy key x l ↔ a = x ∨ a ∈ l := by
  induction l with
  | nil => simp [insortBy]
  | cons y ys ih =>
    by_cases h : key y ≤ key x
    · simp [insortBy, h]
    · simp only [insortBy, if_neg h, List.mem_cons, ih]
      tauto

theorem mem_sortByDesc {α : Type} (key : α → Nat) (a : α) (l : List α) :
    a ∈ sortByDesc key l ↔ a ∈ l := by
  induction l with
  | nil => simp [sortByDesc]
  | cons x xs ih =>
    rw [sortByDesc_cons, mem_insortBy, ih, List.mem_cons]

theorem pairwise_insortBy {α : Type} (key : α → Nat) (x : α) {l : List α}
    (h : l.Pairwise (fun a b => key b ≤ key a)) :
    (insortBy key x l).Pairwise (fun a b => key b ≤ key a) := by
  induction l with
  | nil => simp [insortBy]
  | cons y ys ih =>
    rw [List.pairwise_cons] at h
    by_cases hk : key y ≤ key x
    · rw [insortBy, if_pos hk, List.pairwise_cons]
      refine ⟨?_, List.pairwise_cons.mpr h⟩
      intro b hb
      rcases List.mem_cons.mp hb with rfl | hb
      · exact hk
      · exact le_trans (h.1 b hb) hk
    · rw [insortBy, if_neg hk, List.pairwise_cons]
      refine ⟨?_, ih h.2⟩
      intro b hb
      rcases (mem_insortBy key x b ys).mp hb with rfl | hb
      · exact le_of_not_le hk
      · exact h.1 b hb

theorem sortByDesc_sorted {α : Type} (key : α → Nat) (l : List α) :
    (sortByDesc key l).Pairwise (fun a b => key b ≤ key a) := by
  induction l with
  | nil => exact List.Pairwise.nil
  | cons x xs ih => exact pairwise_insortBy key x ih

theorem filter_insortBy_of_eq {α : Type} (key : α → Nat) (q : Nat) (x : α)
    (l : List α) (hx : key x = q) :
    (insortBy key x l).filter (fun a => key a == q) =
      x :: l.filter (fun a => key a == q) := by
  induction l with
  | nil => simp [insortBy, List.filter, hx]
  | cons y ys ih =>
    by_cases hk : key y ≤ key x
    · rw [insortBy, if_pos hk]
      simp [List.filter_cons, hx]
    · have hy : (key y == q) = false := by
        have : key x < key y := Nat.lt_of_not_le hk
        simp only [beq_eq_false_iff_ne, ne_eq]
        omega
      rw [insortBy, if_neg hk, List.filter_cons, hy, List.filter_cons, hy, ih]
      simp

theorem filter_insortBy_of_ne {α : Type} (key : α → Nat) (q : Nat) (x : α)
    (l : List α) (hx : key x ≠ q) :
    (insortBy key x l).filter (fun a => key a == q) =
      l.filter (fun a => key a == q) := by
  have hxf : (key x == q) = false := by simp [hx]
  induction l with
  | nil => simp [insortBy, List.filter, hxf]
  | cons y ys ih =>
    by_cases hk : key y ≤ key x
    · rw [insortBy, if_pos hk, List.filter_cons, hxf]
      simp
    · rw [insortBy, if_neg hk, List.filter_cons, List.filter_cons, ih]

theorem filter_sortByDesc {α : Type} (key : α → Nat) (q : Nat) (l : List α) :
    (sortByDesc key l).filter (fun a => key a == q) =
      l.filter (fun a => key a == q) := by
  induction l with
  | nil => rfl
  | cons x xs ih =>
    rw [sortByDesc_cons]
    by_cases hx : key x = q
    · rw [filter_insortBy_of_eq key q x _ hx, ih, List.filter_cons]
      simp [hx]
    · rw [filter_insortBy_of_ne key q x _ hx, ih, List.filter_cons]
      simp [hx]

/-! Helper lemmas about the streak loop and placement enumeration. -/

theorem streak_loop_eq_takeWhile (l : List Nat) :
    streak_loop l = (l.takeWhile (fun p => p == 1)).length := by
  induction l with
  | nil => rfl
  | cons p rest ih =>
    by_cases h : p = 1 <;>
      simp [streak_loop, List.takeWhile_cons, h, ih]

theorem enumFrom_succ_map (k : Nat) (l : List (Nat × Nat)) :
    (l.enumFrom k).map (fun ip => ip.1 + 1) = List.range' (k + 1) l.length := by
  induction l generalizing k with
  | nil => rfl
  | cons x xs ih =>
    simp only [List.enumFrom, List.map_cons, List.length_cons, List.range'_succ]
    exact congrArg _ (ih (k + 1))

theorem foldl_add_eq_sum {α : Type} (f : α → Nat) (l : List α) (n : Nat) :
    l.foldl (fun acc r => acc + f r) n = n + (l.map f).sum := by
  induction l generalizing n with
  | nil => simp
  | cons x xs ih =>
    simp only [List.foldl_cons, List.map_cons, List.sum_cons, ih]
    omega

/-- C3: the scoring function maps ("multiplayer", 1..4) to 3,2,1,0 and
("1v1", 1) to 3, ("1v1", 2) to 0; every (gameType, placement) pair outside
this table scores 0 (it is a total function, so no error is possible); and a
player's total points are the sum of these points over all of the player's
placement rows — in particular one multiplayer placement=2 game plus one 1v1
placement=1 game totals 5. -/
theorem C3_scoring_table_and_total_points :
    SCORING "multiplayer" 1 = 3 ∧ SCORING "multiplayer" 2 = 2 ∧
    SCORING "multiplayer" 3 = 1 ∧ SCORING "multiplayer" 4 = 0 ∧
    SCORING "1v1" 1 = 3 ∧ SCORING "1v1" 2 = 0 ∧
    (∀ (gt : String) (p : Nat),
      ¬(gt = "multiplayer" ∧ (p = 1 ∨ p = 2 ∨ p = 3 ∨ p = 4)) →
      ¬(gt = "1v1" ∧ (p = 1 ∨ p = 2)) →
      SCORING gt p = 0) ∧
    (∀ (db : DB) (pid : Nat),
      calculate_player_points db pid =
        ((player_type_placement_rows db pid).map (fun r => SCORING r.1 r.2)).sum) ∧
    calculate_player_points scoringDB 1 = 5 := by
  refine ⟨rfl, rfl, rfl, rfl, rfl, rfl, ?_, ?_, by decide⟩
  · intro gt p h1 h2
    unfold SCORING
    by_cases hm : gt = "multiplayer"
    · have hp1 : p ≠ 1 := fun h => h1 ⟨hm, Or.inl h⟩
      have hp2 : p ≠ 2 := fun h => h1 ⟨hm, Or.inr (Or.inl h)⟩
      have hp3 : p ≠ 3 := fun h => h1 ⟨hm, Or.inr (Or.inr (Or.inl h))⟩
      have hp4 : p ≠ 4 := fun h => h1 ⟨hm, Or.inr (Or.inr (Or.inr h))⟩
      simp [hm, hp1, hp2, hp3, hp4]
    · by_cases ho : gt = "1v1"
      · have hp1 : p ≠ 1 := fun h => h2 ⟨ho, Or.inl h⟩
        have hp2 : p ≠ 2 := fun h => h2 ⟨ho, Or.inr h⟩
        simp [hm, ho, hp1, hp2]
      · simp [hm, ho]
  · intro db pid
    unfold calculate_player_points
    rw [foldl_add_eq_sum]
    omega

/-- C3 witness: a game type and placement outside the scoring table score 0
(applying the defensive-default clause at a concrete unknown pair). -/
theorem C3_scoring_witness : SCORING "commander" 5 = 0 :=
  C3_scoring_table_and_total_points.2.2.2.2.2.2.1 "commander" 5
    (by decide) (by decide)

/-- C1 (code bug): run of `create_game` on an empty store with 4 placements
{1,2,3,4} in which the 3rd placement INSERT fails.  Nothing is rolled back,
so the game row and the first two placement rows of the attempt remain
visible — the write is not all-or-nothing. -/
theorem C1_create_game_fail_leaves_rows :
    (create_game_fail_at emptyDB "multiplayer" "Combat damage"
        [(1, 1, 1), (2, 2, 2), (3, 3, 3), (4, 4, 4)] none 0 3).games =
      [⟨1, "multiplayer", 0, none, "Combat damage"⟩] ∧
    (create_game_fail_at emptyDB "multiplayer" "Combat damage"
        [(1, 1, 1), (2, 2, 2), (3, 3, 3), (4, 4, 4)] none 0 3).placements =
      [⟨1, 1, 1, 1, 1⟩, ⟨2, 1, 2, 2, 2⟩] := by
  exact ⟨rfl, rfl⟩

/-- C2 counterexample: `create_game` signals nothing and writes to storage on
precondition-violating arguments — a "1v1" game with 3 placements is
persisted in full, and duplicate placements {1,1,2} are persisted as
given. -/
theorem C2_create_game_never_validates :
    (create_game emptyDB "1v1" "Combo"
        [(1, 1, 1), (2, 2, 2), (3, 3, 3)] none 0).2.games.length = 1 ∧
    (create_game emptyDB "1v1" "Combo"
        [(1, 1, 1), (2, 2, 2), (3, 3, 3)] none 0).2.placements.length = 3 ∧
    ((create_game emptyDB "multiplayer" "Combo"
        [(1, 1, 1), (2, 2, 1), (3, 3, 2)] none 0).2.placements.map
      (fun r => r.placement)) = [1, 1, 2] := by
  exact ⟨rfl, rfl, rfl⟩

/-- C2 (amended): `create_game` itself performs no validation (see the
counterexample); the precondition checks live in the caller
`GameLogModal.on_submit`, which rejects a "1v1" submission with 3 players
(and any count outside the allowed range) before any storage access, and
which builds the placement list as positions 1..N of the resolved player
list, so the placements reaching `create_game` from that path are exactly
{1,...,N} with no duplicates. -/
theorem C2_validation_in_caller :
    valid_player_count "1v1" 3 = false ∧
    valid_player_count "1v1" 2 = true ∧
    valid_player_count "multiplayer" 3 = true ∧
    valid_player_count "multiplayer" 4 = true ∧
    valid_player_count "multiplayer" 5 = false ∧
    (∀ resolved : List (Nat × Nat),
      (build_placements resolved).map (fun t => t.2.2) =
        List.range' 1 resolved.length) ∧
    (∀ resolved : List (Nat × Nat),
      ((build_placements resolved).map (fun t => t.2.2)).Nodup) := by
  have hb : ∀ resolved : List (Nat × Nat),
      (build_placements resolved).map (fun t => t.2.2) =
        List.range' 1 resolved.length := by
    intro resolved
    unfold build_placements
    rw [List.map_map]
    exact enumFrom_succ_map 0 resolved
  refine ⟨rfl, rfl, rfl, rfl, rfl, hb, ?_⟩
  intro resolved
  rw [hb resolved]
  exact List.nodup_range' _ _

/-- C5: the current streak equals the length of the maximal prefix of wins
of the placement sequence ordered by `played_at` descending (the loop stops
at the first non-win), that ordering is sorted most-recent-first, and a
history reading win, win, loss, win most-recent-first yields a streak
of 2. -/
theorem C5_current_streak_consecutive_wins :
    (∀ (db : DB) (pid : Nat),
      current_streak db pid =
        ((placements_by_played_at_desc db pid).takeWhile (fun p => p == 1)).length) ∧
    (∀ (db : DB) (pid : Nat),
      (sortByDesc (fun r => r.1) (player_time_placement_rows db pid)).Pairwise
        (fun a b => b.1 ≤ a.1)) ∧
    placements_by_played_at_desc streakDB 1 = [1, 1, 2, 1] ∧
    current_streak streakDB 1 = 2 := by
  refine ⟨?_, ?_, by decide, by decide⟩
  · intro db pid
    exact streak_loop_eq_takeWhile _
  · intro db pid
    exact sortByDesc_sorted _ _

theorem find?_map_eq {α : Type} (f : α → α) (p : α → Bool)
    (hp : ∀ x, p (f x) = p x) (l : List α) :
    (l.map f).find? p = (l.find? p).map f := by
  induction l with
  | nil => rfl
  | cons x xs ih =>
    rw [List.map_cons, List.find?_cons, List.find?_cons, hp x]
    cases p x <;> simp [ih]

theorem gocp_of_find (db : DB) (did n : String) (row : PlayerRow)
    (hf : db.players.find? (fun r => r.discord_id == did) = some row) :
    get_or_create_player db did n =
      (⟨row.id, row.discord_id, n⟩,
        if row.username == n then db
        else
          { db with
            players := db.players.map
              (fun r => if r.id == row.id then { r with username := n } else r) }) := by
  unfold get_or_create_player
  rw [hf]

theorem gocp_of_find_none (db : DB) (did n : String)
    (hf : db.players.find? (fun r => r.discord_id == did) = none) :
    get_or_create_player db did n =
      (⟨db.next_player_id, did, n⟩,
        { db with players := db.players ++ [⟨db.next_player_id, did, n⟩],
                  next_player_id := db.next_player_id + 1 }) := by
  unfold get_or_create_player
  rw [hf]

/-- After any `get_or_create_player` call, the first `players` row matching
the discord id is exactly the returned id carrying the requested username. -/
theorem gocp_find (db : DB) (did n : String) :
    (get_or_create_player db did n).2.players.find?
        (fun r => r.discord_id == did) =
      some ⟨(get_or_create_player db did n).1.id, did, n⟩ := by
  cases hf : db.players.find? (fun r => r.discord_id == did) with
  | none =>
    rw [gocp_of_find_none db did n hf]
    simp only [List.find?_append, hf]
    simp [List.find?]
  | some row =>
    have hd : row.discord_id = did := by
      have h := List.find?_some hf
      simpa using h
    rw [gocp_of_find db did n row hf]
    by_cases hu : row.username = n
    · simp only [hu, beq_self_eq_true, if_true]
      rw [hf]
      cases row
      simp_all
    · have hub : (row.username == n) = false := by simpa using hu
      simp only [hub, Bool.false_eq_true, if_false]
      rw [find?_map_eq _ _ ?hpres, hf]
      case hpres =>
        intro x
        by_cases hx : x.id == row.id <;> simp [hx]
      simp only [Option.map_some']
      cases row
      simp_all

/-- C6: calling get_or_create_player twice with the same externalId yields
the same player identifier both times, the second call adds no row, and the
second call's displayName is persisted on the same row without changing the
identifier. -/
theorem C6_get_or_create_player_idempotent :
    ∀ (db : DB) (did n1 n2 : String),
      (get_or_create_player (get_or_create_player db did n1).2 did n2).1.id =
        (get_or_create_player db did n1).1.id ∧
      (get_or_create_player (get_or_create_player db did n1).2 did n2).2.players.length =
        (get_or_create_player db did n1).2.players.length ∧
      (get_or_create_player (get_or_create_player db did n1).2 did n2).2.players.find?
          (fun r => r.discord_id == did) =
        some ⟨(get_or_create_player db did n1).1.id, did, n2⟩ := by
  intro db did n1 n2
  have h1 := gocp_find db did n1
  have h2 := gocp_of_find (get_or_create_player db did n1).2 did n2 _ h1
  have hid : (get_or_create_player (get_or_create_player db did n1).2 did n2).1.id =
      (get_or_create_player db did n1).1.id := by
    rw [h2]
  refine ⟨hid, ?_, ?_⟩
  · rw [h2]
    by_cases hu : n1 = n2 <;> simp [hu]
  · rw [gocp_find (get_or_create_player db did n1).2 did n2, hid]

theorem gocd_of_find (db : DB) (pid : Nat) (n : String) (row : DeckRow)
    (hf : db.decks.find?
        (fun d => d.player_id == pid && d.commander_name == strip n) = some row) :
    get_or_create_deck db pid n = (row, db) := by
  simp only [get_or_create_deck, hf]

theorem gocd_of_find_none (db : DB) (pid : Nat) (n : String)
    (hf : db.decks.find?
        (fun d => d.player_id == pid && d.commander_name == strip n) = none) :
    get_or_create_deck db pid n =
      (⟨db.next_deck_id, pid, strip n⟩,
        { db with decks := db.decks ++ [⟨db.next_deck_id, pid, strip n⟩],
                  next_deck_id := db.next_deck_id + 1 }) := by
  simp only [get_or_create_deck, hf]

/-- After any `get_or_create_deck` call, the first `decks` row matching
`(player_id, stripped name)` is the returned deck. -/
theorem gocd_find (db : DB) (pid : Nat) (n : String) :
    (get_or_create_deck db pid n).2.decks.find?
        (fun d => d.player_id == pid && d.commander_name == strip n) =
      some (get_or_create_deck db pid n).1 := by
  cases hf : db.decks.find?
      (fun d => d.player_id == pid && d.commander_name == strip n) with
  | some row =>
    rw [gocd_of_find db pid n row hf]
    exact hf
  | none =>
    rw [gocd_of_find_none db pid n hf]
    simp only [List.find?_append, hf]
    simp [List.find?]

/-- C7: get_or_create_deck strips surrounding whitespace before lookup and
insert, so two calls whose names agree after stripping return the same deck
id and the second call leaves the decks table unchanged (no second row for
the same (player, stripped name) key). -/
theorem C7_get_or_create_deck_strip_idempotent :
    ∀ (db : DB) (pid : Nat) (n1 n2 : String), strip n1 = strip n2 →
      (get_or_create_deck (get_or_create_deck db pid n1).2 pid n2).1.id =
        (get_or_create_deck db pid n1).1.id ∧
      (get_or_create_deck (get_or_create_deck db pid n1).2 pid n2).2.decks =
        (get_or_create_deck db pid n1).2.decks := by
  intro db pid n1 n2 h
  have h1 := gocd_find db pid n1
  rw [h] at h1
  have h2 := gocd_of_find (get_or_create_deck db pid n1).2 pid n2 _ h1
  rw [h2]
  exact ⟨rfl, rfl⟩

/-- C7 witness: registering "Atraxa" and then " Atraxa " for player 1 on an
empty store returns the same deck id twice and leaves a single deck row. -/
theorem C7_deck_strip_witness :
    (get_or_create_deck (get_or_create_deck emptyDB 1 "Atraxa").2 1 " Atraxa ").1.id =
      (get_or_create_deck emptyDB 1 "Atraxa").1.id ∧
    (get_or_create_deck (get_or_create_deck emptyDB 1 "Atraxa").2 1 " Atraxa ").2.decks =
      (get_or_create_deck emptyDB 1 "Atraxa").2.decks :=
  C7_get_or_create_deck_strip_idempotent emptyDB 1 "Atraxa" " Atraxa " (by decide)

theorem shared_games_comm (db : DB) (pid1 pid2 : Nat) :
    shared_games db pid1 pid2 = shared_games db pid2 pid1 := by
  unfold shared_games
  exact List.filter_congr (fun g _ => Bool.and_comm _ _)

theorem h2h_step_swap (db : DB) (pid1 pid2 : Nat) (hne : pid1 ≠ pid2)
    (a : H2HAcc) (g : GameRow) :
    h2h_step db pid2 pid1 (swapAcc a) g = swapAcc (h2h_step db pid1 pid2 a g) := by
  unfold h2h_step
  cases hw : game_winner db g.id with
  | none => rfl
  | some w =>
    by_cases h1 : w = pid1
    · have h2f : (w == pid2) = false := by simp [h1, hne]
      have h1t : (w == pid1) = true := by simp [h1]
      simp only [h2f, h1t, Bool.false_eq_true, if_false, if_true, swapAcc]
    · by_cases h2 : w = pid2
      · have h1f : (w == pid1) = false := by simp [h1]
        have h2t : (w == pid2) = true := by simp [h2]
        simp only [h1f, h2t, Bool.false_eq_true, if_false, if_true, swapAcc]
      · have h1f : (w == pid1) = false := by simp [h1]
        have h2f : (w == pid2) = false := by simp [h2]
        simp only [h1f, h2f, Bool.false_eq_true, if_false]

theorem h2h_foldl_swap (db : DB) (pid1 pid2 : Nat) (hne : pid1 ≠ pid2)
    (l : List GameRow) (a : H2HAcc) :
    l.foldl (h2h_step db pid2 pid1) (swapAcc a) =
      swapAcc (l.foldl (h2h_step db pid1 pid2) a) := by
  induction l generalizing a with
  | nil => rfl
  | cons g gs ih =>
    rw [List.foldl_cons, List.foldl_cons, h2h_step_swap db pid1 pid2 hne, ih]

/-- C8: head-to-head is symmetric in its arguments for two known players
with distinct identifiers: swapping the discord ids swaps the two win
counters (and the 1v1 record), with the same shared-game count, each shared
game's winner being the holder of its placement==1 row. -/
theorem C8_head_to_head_symmetric :
    ∀ (db : DB) (didA didB : String) (p q : PlayerRow),
      get_player_by_discord_id db didA = some p →
      get_player_by_discord_id db didB = some q →
      p.id ≠ q.id →
      ∃ s t, get_head_to_head db didA didB = some s ∧
        get_head_to_head db didB didA = some t ∧
        s.player1_wins = t.player2_wins ∧
        s.player2_wins = t.player1_wins ∧
        s.games_together = t.games_together ∧
        s.one_v_one_record.1 = t.one_v_one_record.2 ∧
        s.one_v_one_record.2 = t.one_v_one_record.1 := by
  intro db A B p q hA hB hne
  have hAB : get_head_to_head db A B =
      some ⟨p.username, q.username,
        ((shared_games db p.id q.id).foldl (h2h_step db p.id q.id) ⟨0, 0, 0, 0⟩).p1w,
        ((shared_games db p.id q.id).foldl (h2h_step db p.id q.id) ⟨0, 0, 0, 0⟩).p2w,
        (shared_games db p.id q.id).length,
        (((shared_games db p.id q.id).foldl (h2h_step db p.id q.id) ⟨0, 0, 0, 0⟩).ov1,
          ((shared_games db p.id q.id).foldl (h2h_step db p.id q.id) ⟨0, 0, 0, 0⟩).ov2)⟩ := by
    simp only [get_head_to_head, hA, hB]
  have hfold : (shared_games db p.id q.id).foldl (h2h_step db q.id p.id) ⟨0, 0, 0, 0⟩ =
      swapAcc ((shared_games db p.id q.id).foldl (h2h_step db p.id q.id) ⟨0, 0, 0, 0⟩) := by
    have h0 : (⟨0, 0, 0, 0⟩ : H2HAcc) = swapAcc ⟨0, 0, 0, 0⟩ := rfl
    calc (shared_games db p.id q.id).foldl (h2h_step db q.id p.id) ⟨0, 0, 0, 0⟩
        = (shared_games db p.id q.id).foldl (h2h_step db q.id p.id) (swapAcc ⟨0, 0, 0, 0⟩) := by
          rw [← h0]
      _ = swapAcc ((shared_games db p.id q.id).foldl (h2h_step db p.id q.id) ⟨0, 0, 0, 0⟩) :=
          h2h_foldl_swap db p.id q.id hne _ _
  have hBA : get_head_to_head db B A =
      some ⟨q.username, p.username,
        ((shared_games db p.id q.id).foldl (h2h_step db p.id q.id) ⟨0, 0, 0, 0⟩).p2w,
        ((shared_games db p.id q.id).foldl (h2h_step db p.id q.id) ⟨0, 0, 0, 0⟩).p1w,
        (shared_games db p.id q.id).length,
        (((shared_games db p.id q.id).foldl (h2h_step db p.id q.id) ⟨0, 0, 0, 0⟩).ov2,
          ((shared_games db p.id q.id).foldl (h2h_step db p.id q.id) ⟨0, 0, 0, 0⟩).ov1)⟩ := by
    simp only [get_head_to_head, hA, hB, shared_games_comm db q.id p.id, hfold]
    rfl
  exact ⟨_, _, hAB, hBA, rfl, rfl, rfl, rfl, rfl⟩

/-- C8 witness: concrete symmetry of the head-to-head record of players a
and b over one shared game. -/
theorem C8_head_to_head_witness :
    ∃ s t, get_head_to_head h2hDB "a" "b" = some s ∧
      get_head_to_head h2hDB "b" "a" = some t ∧
      s.player1_wins = t.player2_wins ∧
      s.player2_wins = t.player1_wins ∧
      s.games_together = t.games_together ∧
      s.one_v_one_record.1 = t.one_v_one_record.2 ∧
      s.one_v_one_record.2 = t.one_v_one_record.1 :=
  C8_head_to_head_symmetric h2hDB "a" "b" ⟨1, "a", "A"⟩ ⟨2, "b", "B"⟩
    (by decide) (by decide) (by decide)

/-- C9: when the stereotypes table holds exactly one row with the stripped
name, add_stereotype returns none (not an error) and leaves the store
untouched, still with exactly one such row; with no such row it inserts
exactly one row and returns the created stereotype. -/
theorem C9_add_stereotype_null_on_duplicate :
    ∀ (db : DB) (name : String),
      ((db.stereotypes.filter (fun s => s.name == strip name)).length = 1 →
        (add_stereotype db name).1 = none ∧
        (add_stereotype db name).2 = db ∧
        ((add_stereotype db name).2.stereotypes.filter
            (fun s => s.name == strip name)).length = 1) ∧
      ((db.stereotypes.filter (fun s => s.name == strip name)).length = 0 →
        (add_stereotype db name).1 = some ⟨db.next_stereotype_id, strip name⟩ ∧
        (add_stereotype db name).2.stereotypes =
          db.stereotypes ++ [⟨db.next_stereotype_id, strip name⟩] ∧
        ((add_stereotype db name).2.stereotypes.filter
            (fun s => s.name == strip name)).length = 1) := by
  intro db name
  constructor
  · intro h
    have hex : ∃ x, x ∈ db.stereotypes.filter (fun s => s.name == strip name) := by
      cases hft : db.stereotypes.filter (fun s => s.name == strip name) with
      | nil => rw [hft] at h; simp at h
      | cons y ys => exact ⟨y, hft ▸ List.mem_cons_self y ys⟩
    obtain ⟨x, hx⟩ := hex
    have hx2 := List.mem_filter.mp hx
    have hany : db.stereotypes.any (fun s => s.name == strip name) = true :=
      List.any_eq_true.mpr ⟨x, hx2.1, hx2.2⟩
    simp only [add_stereotype]
    rw [if_pos hany]
    exact ⟨rfl, rfl, h⟩
  · intro h
    have hnil : db.stereotypes.filter (fun s => s.name == strip name) = [] :=
      List.length_eq_zero.mp h
    have hany : db.stereotypes.any (fun s => s.name == strip name) = false := by
      rw [← Bool.not_eq_true, List.any_eq_true]
      rintro ⟨x, hx, hpx⟩
      have : x ∈ db.stereotypes.filter (fun s => s.name == strip name) :=
        List.mem_filter.mpr ⟨hx, hpx⟩
      rw [hnil] at this
      simp at this
    simp only [add_stereotype]
    rw [if_neg (by rw [hany]; exact Bool.false_ne_true)]
    refine ⟨rfl, rfl, ?_⟩
    rw [List.filter_append, hnil, List.nil_append]
    simp [List.filter]

/-- C9 witness: adding "Ramp" to an empty stereotypes table inserts one row
and returns it; adding "Ramp" again returns none, changes nothing, and the
table still holds exactly one "Ramp" row. -/
theorem C9_add_stereotype_witness :
    (add_stereotype emptyDB "Ramp").1 = some ⟨1, "Ramp"⟩ ∧
    (add_stereotype (add_stereotype emptyDB "Ramp").2 "Ramp").1 = none ∧
    (add_stereotype (add_stereotype emptyDB "Ramp").2 "Ramp").2 =
      (add_stereotype emptyDB "Ramp").2 ∧
    ((add_stereotype (add_stereotype emptyDB "Ramp").2 "Ramp").2.stereotypes.filter
        (fun s => s.name == strip "Ramp")).length = 1 := by
  have hfresh := (C9_add_stereotype_null_on_duplicate emptyDB "Ramp").2 (by decide)
  have hdup := (C9_add_stereotype_null_on_duplicate
      (add_stereotype emptyDB "Ramp").2 "Ramp").1 hfresh.2.2
  exact ⟨hfresh.1, hdup.1, hdup.2.1, hdup.2.2⟩

/-- C10: for an externalId that matches no player row, get_player_stereotypes
returns the empty list — not an error — and the result does not depend on
the game_stereotypes join table at all. -/
theorem C10_unknown_player_empty_stereotypes :
    ∀ (db : DB) (did : String) (gs : List GameStereotypeRow),
      get_player_by_discord_id db did = none →
      get_player_stereotypes { db with game_stereotypes := gs } did = [] := by
  intro db did gs h
  have h2 : get_player_by_discord_id { db with game_stereotypes := gs } did = none := h
  simp only [get_player_stereotypes, h2]

/-- C10 witness: an unknown discord id yields the empty list even with a
populated join table. -/
theorem C10_unknown_player_witness :
    get_player_stereotypes { emptyDB with game_stereotypes := [⟨1, 1, 1, 1⟩] } "ghost" = [] :=
  C10_unknown_player_empty_stereotypes emptyDB "ghost" [⟨1, 1, 1, 1⟩] (by decide)

/-- C4: get_leaderboard returns exactly the players with at least one
recorded game (zero-game players are excluded), each row carrying total
games, wins = count of placement==1 rows, points per the scoring table, and
winRate = wins/totalGames*100; the list is sorted descending by points, and
the relative order of point-tied players equals the deterministic order of
the underlying player enumeration — the sort is stable — so it is unchanged
across repeated calls on the same data. -/
theorem C4_leaderboard :
    ∀ db : DB,
      (∀ s, s ∈ get_leaderboard db →
        s.total_games ≠ 0 ∧ ∃ p, p ∈ db.players ∧ s = player_stats_row db p) ∧
      (∀ p, p ∈ db.players →
        db.placements.filter (fun gp => gp.player_id == p.id) ≠ [] →
        player_stats_row db p ∈ get_leaderboard db) ∧
      (∀ p : PlayerRow,
        (player_stats_row db p).total_games =
          (db.placements.filter (fun gp => gp.player_id == p.id)).length ∧
        (player_stats_row db p).wins =
          (db.placements.filter
            (fun gp => gp.player_id == p.id && gp.placement == 1)).length ∧
        (player_stats_row db p).points = calculate_player_points db p.id) ∧
      (∀ p : PlayerRow,
        db.placements.filter (fun gp => gp.player_id == p.id) ≠ [] →
        (player_stats_row db p).win_rate =
          ((player_stats_row db p).wins : ℚ) /
            ((player_stats_row db p).total_games : ℚ) * 100) ∧
      (get_leaderboard db).Pairwise (fun a b => b.points ≤ a.points) ∧
      (∀ q : Nat, (get_leaderboard db).filter (fun s => s.points == q) =
        ((db.players.map (player_stats_row db)).filter
          (fun s => s.total_games != 0)).filter (fun s => s.points == q)) := by
  intro db
  refine ⟨?_, ?_, ?_, ?_, ?_, ?_⟩
  · intro s hs
    rw [get_leaderboard, mem_sortByDesc] at hs
    have h1 := List.mem_filter.mp hs
    obtain ⟨p, hp, hps⟩ := List.mem_map.mp h1.1
    refine ⟨?_, p, hp, hps.symm⟩
    simpa using h1.2
  · intro p hp hne
    rw [get_leaderboard, mem_sortByDesc]
    apply List.mem_filter.mpr
    refine ⟨List.mem_map.mpr ⟨p, hp, rfl⟩, ?_⟩
    have : (db.placements.filter (fun gp => gp.player_id == p.id)).length ≠ 0 :=
      fun h => hne (List.length_eq_zero.mp h)
    simpa [player_stats_row] using this
  · intro p
    refine ⟨rfl, ?_, rfl⟩
    show ((db.placements.filter (fun gp => gp.player_id == p.id)).filter
        (fun gp => gp.placement == 1)).length = _
    rw [List.filter_filter]
    congr 1
    exact List.filter_congr (fun x _ => Bool.and_comm _ _)
  · intro p hne
    have hpos : 0 < (db.placements.filter (fun gp => gp.player_id == p.id)).length :=
      List.length_pos.mpr hne
    simp only [player_stats_row]
    rw [if_pos hpos]
  · rw [get_leaderboard]
    exact sortByDesc_sorted _ _
  · intro q
    rw [get_leaderboard]
    exact filter_sortByDesc _ q _

/-- C4 witness: on a concrete store the playing player's stats row is a
leaderboard member, that membership recovers a witnessing player row through
the characterization clause, and the win-rate clause applies. -/
theorem C4_leaderboard_witness :
    player_stats_row lbDB ⟨1, "a", "A"⟩ ∈ get_leaderboard lbDB ∧
    (∃ p, p ∈ lbDB.players ∧
      player_stats_row lbDB ⟨1, "a", "A"⟩ = player_stats_row lbDB p) ∧
    (player_stats_row lbDB ⟨1, "a", "A"⟩).win_rate =
      ((player_stats_row lbDB ⟨1, "a", "A"⟩).wins : ℚ) /
        ((player_stats_row lbDB ⟨1, "a", "A"⟩).total_games : ℚ) * 100 := by
  have hmem := (C4_leaderboard lbDB).2.1 ⟨1, "a", "A"⟩ (by decide) (by decide)
  have hchar := (C4_leaderboard lbDB).1 _ hmem
  have hwr := (C4_leaderboard lbDB).2.2.2.1 ⟨1, "a", "A"⟩ (by decide)
  exact ⟨hmem, hchar.2, hwr⟩

end MtgBot
